import Mathlib

/-!
Verification of the Timmons photobooth image-processing core.

The JavaScript sources are embedded shallowly over `ℚ`: JavaScript numbers
are IEEE doubles, but every operation the verified claims depend on
(addition, multiplication, division, min, max, comparisons, floor-based
rounding) is exact rational arithmetic here.  The irrational library
functions `Math.sqrt`, `Math.exp` and `Math.pow` are taken as function
parameters of the definitions that use them; the vignette computation
squares a square root, `(sqrt q)^2 = q`, so it is embedded directly on the
radicand.  `Math.random()` draws are threaded as an explicit stream.
-/

namespace Timmons

/-- clamp from filters.js: `Math.min(max, Math.max(min, value))`. -/
def clamp (value lo hi : ℚ) : ℚ := min hi (max lo value)

/-- lerp from filters.js: `a + (b - a) * t`. -/
def lerp (a b t : ℚ) : ℚ := a + (b - a) * t

/-- smoothstep from filters.js (first variant): clamped Hermite curve. -/
def smoothstep (e0 e1 x : ℚ) : ℚ :=
  let t := clamp ((x - e0) / (e1 - e0)) 0 1
  t * t * (3 - 2 * t)

/-- JavaScript `Math.round`: round half toward positive infinity. -/
def jsRound (q : ℚ) : ℤ := ⌊q + 1/2⌋

/-- The filter-settings record of state.js (the fields the pixel pipeline
reads; `blur` is a canvas-level CSS filter and is not part of it). -/
structure FilterSettings where
  contrast : ℚ
  brightness : ℚ
  shadows : ℚ
  highlights : ℚ
  grain : ℚ
  vignette : ℚ
  sepia : ℚ
  backgroundDim : ℚ
  lightBoost : ℚ
deriving DecidableEq

namespace CPU

/-- applyContrast from filters.js: remap around midpoint 128, clamped. -/
def applyContrast (value contrast : ℚ) : ℚ :=
  clamp (128 + (value - 128) * contrast) 0 255

/-- crushShadows from filters.js: below 128, multiply by `1 - amount/100`. -/
def crushShadows (value amount : ℚ) : ℚ :=
  if value < 128 then value * (1 - amount / 100) else value

/-- liftHighlights from filters.js: above 180, add `(amount/100)*(255-value)*0.5`. -/
def liftHighlights (value amount : ℚ) : ℚ :=
  if 180 < value then value + (amount / 100) * (255 - value) * (1/2) else value

/-- One entry of createVignetteMap from filters.js.  The source computes
`normalizedDistance = sqrt(dx*dx+dy*dy) / sqrt(cx*cx+cy*cy)` and then uses
`Math.pow(normalizedDistance, 2)`; since `(sqrt a / sqrt b)^2 = a / b`, the
squared normalized distance is formed directly on the radicands. -/
def vignetteAt (width height x y : ℕ) (intensity : ℚ) : ℚ :=
  let centerX : ℚ := (width : ℚ) / 2
  let centerY : ℚ := (height : ℚ) / 2
  let dx : ℚ := (x : ℚ) - centerX
  let dy : ℚ := (y : ℚ) - centerY
  let normSq : ℚ := (dx * dx + dy * dy) / (centerX * centerX + centerY * centerY)
  max (3/10) (1 - normSq * (intensity / 100))

/-- The background-dim step of the first applyTimmonsFilters variant
(filters.js lines 33-48): power-curve dimming with a smoothstep edge mask.
`powFn` models `Math.pow`. -/
def dimStepPow (powFn : ℚ → ℚ → ℚ) (d m r g b : ℚ) : ℚ × ℚ × ℚ :=
  let dimPower := 1 + d * 2
  let f := powFn (1 - d) dimPower
  let edgeMask := smoothstep (2/10) (8/10) m
  (lerp (r * f) r edgeMask, lerp (g * f) g edgeMask, lerp (b * f) b edgeMask)

/-- The background-dim step of the second applyTimmonsFilters variant
(filters.js lines 182-191): linear dim factor blended by the raw mask value. -/
def dimStepLinear (d m r g b : ℚ) : ℚ × ℚ × ℚ :=
  let dimFactor := 1 - d
  (lerp (r * dimFactor) r m, lerp (g * dimFactor) g m, lerp (b * dimFactor) b m)

/-- Per-pixel body of applyTimmonsFilters (filters.js lines 161-231).
`maskOpt` is `none` when the call passed `mask = null`; `vig` is the
precomputed vignette-map entry for this pixel; `rand` is the pixel's
`Math.random()` draw (consumed only when grain is positive). -/
def processPixel (s : FilterSettings) (vig : ℚ) (maskOpt : Option ℚ)
    (r g b rand : ℚ) : ℚ × ℚ × ℚ :=
  let maskValue := maskOpt.getD 1
  let rgb :=
    match maskOpt with
    | some _ =>
        if 0 < s.backgroundDim then dimStepLinear s.backgroundDim maskValue r g b
        else (r, g, b)
    | none => (r, g, b)
  let gray := (299/1000) * rgb.1 + (587/1000) * rgb.2.1 + (114/1000) * rgb.2.2
  let gray := gray * s.brightness
  let gray := applyContrast gray s.contrast
  let gray := crushShadows gray s.shadows
  let gray := liftHighlights gray s.highlights
  let gray := gray * vig
  let fin :=
    if 0 < s.sepia then
      let sepiaAmount := s.sepia / 100
      (gray + gray * (15/100) * sepiaAmount,
       gray + gray * (5/100) * sepiaAmount,
       gray - gray * (1/10) * sepiaAmount)
    else (gray, gray, gray)
  let fin :=
    if 0 < s.grain then
      let grainAmount := (rand - 1/2) * s.grain
      (fin.1 + grainAmount, fin.2.1 + grainAmount, fin.2.2 + grainAmount)
    else fin
  (clamp fin.1 0 255, clamp fin.2.1 0 255, clamp fin.2.2 0 255)

/-- applyTimmonsFilters (filters.js lines 161-231) at the buffer level:
`data` is the flat RGBA list, `mask` the optional confidence mask, `rng`
the stream of per-pixel `Math.random()` draws.  The alpha channel is left
untouched, exactly as in the source. -/
def applyTimmonsFilters (width height : ℕ) (data : List ℚ)
    (mask : Option (List ℚ)) (s : FilterSettings) (rng : ℕ → ℚ) : List ℚ :=
  (List.range (width * height)).flatMap (fun i =>
    let x := i % width
    let y := i / width
    let maskOpt := mask.map (fun mk => mk.getD i 0)
    let vig := vignetteAt width height x y s.vignette
    let rgb := processPixel s vig maskOpt
      (data.getD (4*i) 0) (data.getD (4*i+1) 0) (data.getD (4*i+2) 0) (rng i)
    [rgb.1, rgb.2.1, rgb.2.2, data.getD (4*i+3) 0])

/-- Per-pixel body of applyDirectionalLighting (lighting.js lines 18-82).
`sqrtFn` models `Math.sqrt`.  The source returns immediately when
`intensity <= 0` and skips pixels with `maskVal < 0.05`. -/
def applyDirectionalLightingPixel (sqrtFn : ℚ → ℚ) (width height x y : ℕ)
    (maskVal intensity r g b : ℚ) : ℚ × ℚ × ℚ :=
  if intensity ≤ 0 then (r, g, b)
  else if maskVal < 1/20 then (r, g, b)
  else
    let normX : ℚ := (x : ℚ) / (width : ℚ)
    let normY : ℚ := (y : ℚ) / (height : ℚ)
    let toKeyX := 17/20 - normX
    let toKeyY := 1/10 - normY
    let keyDist := sqrtFn (toKeyX * toKeyX + toKeyY * toKeyY)
    let keyIntensity := 1 / (1 + keyDist * (5/2))
    let keyDirection := max 0 (toKeyX * (7/10) + toKeyY * (3/10))
    let keyLight := keyIntensity * (6/10) + keyDirection * (4/10)
    let toFillX := 3/20 - normX
    let toFillY := 2/5 - normY
    let fillDist := sqrtFn (toFillX * toFillX + toFillY * toFillY)
    let fillLight := (3/10) / (1 + fillDist * 2)
    let edgeFactor := maskVal * (1 - maskVal) * 4
    let rimLight := edgeFactor * (4/10)
    let totalLight := keyLight * (14/10) + fillLight + rimLight
    let adjusted := 4/10 + totalLight * (11/10)
    let lightEffect := 1 + (adjusted - 1) * intensity * (13/10)
    let lightFactor := 1 + (lightEffect - 1) * maskVal
    (clamp (r * lightFactor) 0 255,
     clamp (g * lightFactor) 0 255,
     clamp (b * lightFactor) 0 255)

/-- The CPU scalar path per pixel: applyDirectionalLighting (at the
filter-settings light boost) followed by the applyTimmonsFilters body, in
0-255 space, as composed by applyCPUFilters. -/
def pipelinePixel (sqrtFn : ℚ → ℚ) (s : FilterSettings) (width height x y : ℕ)
    (m r g b rand : ℚ) : ℚ × ℚ × ℚ :=
  let lit := applyDirectionalLightingPixel sqrtFn width height x y m s.lightBoost r g b
  processPixel s (vignetteAt width height x y s.vignette) (some m)
    lit.1 lit.2.1 lit.2.2 rand

end CPU

namespace GPU

/-- WGSL fract: `q - floor(q)`. -/
def fract (q : ℚ) : ℚ := q - ⌊q⌋

/-- hash from FILTER_SHADER: `p3 = fract(vec3(p.x,p.y,p.x) * 0.1031);
p3 += dot(p3, p3.yzx + 33.33); return fract((p3.x + p3.y) * p3.z)`. -/
def hash (px py : ℚ) : ℚ :=
  let p3x := fract (px * (1031/10000))
  let p3y := fract (py * (1031/10000))
  let p3z := fract (px * (1031/10000))
  let d := p3x * (p3y + 3333/100) + p3y * (p3z + 3333/100) + p3z * (p3x + 3333/100)
  fract ((p3x + d + (p3y + d)) * (p3z + d))

/-- random from FILTER_SHADER: position- and seed-based pseudo-random in [-1,1). -/
def random (x y seed : ℚ) : ℚ := hash (x + seed) (y + seed * (13/10)) * 2 - 1

/-- WGSL mix: linear interpolation. -/
def mix (a b t : ℚ) : ℚ := a + (b - a) * t

/-- applyContrast from FILTER_SHADER: remap around midpoint 0.5, clamped to [0,1]. -/
def applyContrast (value contrast : ℚ) : ℚ :=
  clamp (1/2 + (value - 1/2) * contrast) 0 1

/-- crushShadows from FILTER_SHADER: threshold 0.5 in [0,1] space. -/
def crushShadows (value amount : ℚ) : ℚ :=
  if value < 1/2 then value * (1 - amount / 100) else value

/-- liftHighlights from FILTER_SHADER: threshold 0.7 in [0,1] space. -/
def liftHighlights (value amount : ℚ) : ℚ :=
  if 7/10 < value then value + (amount / 100) * (1 - value) * (1/2) else value

/-- calcVignette from FILTER_SHADER; as with the CPU variant the squared
normalized distance `(sqrt d / sqrt m)^2 = d / m` is formed directly. -/
def calcVignette (x y width height intensity : ℚ) : ℚ :=
  let centerX := width / 2
  let centerY := height / 2
  let dx := x - centerX
  let dy := y - centerY
  let normSq := (dx * dx + dy * dy) / (centerX * centerX + centerY * centerY)
  max (3/10) (1 - normSq * (intensity / 100))

/-- calcLighting from FILTER_SHADER.  Returns the brightness multiplier;
`sqrtFn` models the WGSL sqrt. -/
def calcLighting (sqrtFn : ℚ → ℚ) (x y width height maskVal boost : ℚ) : ℚ :=
  if boost ≤ 0 ∨ maskVal < 1/20 then 1
  else
    let normX := x / width
    let normY := y / height
    let toKeyX := 17/20 - normX
    let toKeyY := 1/10 - normY
    let keyDist := sqrtFn (toKeyX * toKeyX + toKeyY * toKeyY)
    let keyIntensity := 1 / (1 + keyDist * (5/2))
    let keyDirection := max 0 (toKeyX * (7/10) + toKeyY * (3/10))
    let keyLight := keyIntensity * (6/10) + keyDirection * (4/10)
    let toFillX := 3/20 - normX
    let toFillY := 2/5 - normY
    let fillDist := sqrtFn (toFillX * toFillX + toFillY * toFillY)
    let fillLight := (3/10) / (1 + fillDist * 2)
    let edgeFactor := maskVal * (1 - maskVal) * 4
    let rimLight := edgeFactor * (4/10)
    let totalLight := keyLight * (14/10) + fillLight + rimLight
    let adjusted := 4/10 + totalLight * (11/10)
    let lightEffect := mix 1 adjusted (boost * (13/10))
    mix 1 lightEffect maskVal

/-- Per-pixel body of the FILTER_SHADER main entry point, in [0,1] channel
space.  `seed` is the `Math.random()*1000` grain seed packed into the
uniform buffer by applyFiltersGPU. -/
def processPixel (sqrtFn : ℚ → ℚ) (s : FilterSettings) (seed : ℚ)
    (width height x y : ℕ) (maskVal r g b : ℚ) : ℚ × ℚ × ℚ :=
  let rgb :=
    if 0 < s.backgroundDim then
      let dimFactor := 1 - s.backgroundDim
      (mix (r * dimFactor) r maskVal,
       mix (g * dimFactor) g maskVal,
       mix (b * dimFactor) b maskVal)
    else (r, g, b)
  let lightMult := calcLighting sqrtFn (x : ℚ) (y : ℚ) (width : ℚ) (height : ℚ)
    maskVal s.lightBoost
  let r := clamp (rgb.1 * lightMult) 0 1
  let g := clamp (rgb.2.1 * lightMult) 0 1
  let b := clamp (rgb.2.2 * lightMult) 0 1
  let gray := (299/1000) * r + (587/1000) * g + (114/1000) * b
  let gray := gray * s.brightness
  let gray := applyContrast gray s.contrast
  let gray := crushShadows gray s.shadows
  let gray := liftHighlights gray s.highlights
  let vig := calcVignette (x : ℚ) (y : ℚ) (width : ℚ) (height : ℚ) s.vignette
  let gray := gray * vig
  let fin :=
    if 0 < s.sepia then
      let sepiaAmount := s.sepia / 100
      (gray + gray * (15/100) * sepiaAmount,
       gray + gray * (5/100) * sepiaAmount,
       gray - gray * (1/10) * sepiaAmount)
    else (gray, gray, gray)
  let fin :=
    if 0 < s.grain then
      let grainAmount := random (x : ℚ) (y : ℚ) seed * (s.grain / 255)
      (fin.1 + grainAmount, fin.2.1 + grainAmount, fin.2.2 + grainAmount)
    else fin
  (clamp fin.1 0 1, clamp fin.2.1 0 1, clamp fin.2.2 0 1)

end GPU

/-- Array read with JavaScript typed-array semantics for the in-range
indices used by the mask code (out-of-range reads default to 0). -/
def maskGet (mask : List ℚ) (i : ℕ) : ℚ := mask.getD i 0

/-- The (2r+1)^2 neighborhood scan of erodeMask/dilateMask (mask.js):
`dy` outer loop, `dx` inner loop, bounds-checked against the image. -/
def neighborIdx (width height x y radius : ℕ) : List ℕ :=
  (List.range (2*radius+1)).flatMap (fun dy =>
    (List.range (2*radius+1)).filterMap (fun dx =>
      let ny : ℤ := (y : ℤ) + dy - radius
      let nx : ℤ := (x : ℤ) + dx - radius
      if 0 ≤ ny ∧ ny < height ∧ 0 ≤ nx ∧ nx < width
      then some (ny.toNat * width + nx.toNat) else none))

/-- erodeMask from mask.js lines 202-224: per-pixel minimum over the
clamped (2r+1)^2 neighborhood, seeded with the pixel's own value. -/
def erodeMask (mask : List ℚ) (width height radius : ℕ) : List ℚ :=
  (List.range (width * height)).map (fun i =>
    let x := i % width
    let y := i / width
    (neighborIdx width height x y radius).foldl
      (fun acc ni => min acc (maskGet mask ni)) (maskGet mask i))

/-- dilateMask from mask.js lines 229-251: per-pixel maximum over the
clamped (2r+1)^2 neighborhood, seeded with the pixel's own value. -/
def dilateMask (mask : List ℚ) (width height radius : ℕ) : List ℚ :=
  (List.range (width * height)).map (fun i =>
    let x := i % width
    let y := i / width
    (neighborIdx width height x y radius).foldl
      (fun acc ni => max acc (maskGet mask ni)) (maskGet mask i))

/-- Edge clamp of gaussianBlurMask: `Math.min(Math.max(v, 0), n - 1)`. -/
def clampIdx (v : ℤ) (n : ℕ) : ℕ := (min (max v 0) ((n : ℤ) - 1)).toNat

/-- Unnormalized Gaussian kernel entry of gaussianBlurMask:
`exp(-(k^2)/(2*sigma^2))` at offset `k = j - radius`, sigma = radius/3.
`gexp` models `Math.exp` (strictly positive on every input). -/
def gaussKernelRaw (gexp : ℚ → ℚ) (radius j : ℕ) : ℚ :=
  let sigma : ℚ := (radius : ℚ) / 3
  gexp (-(((j : ℚ) - radius)^2) / (2 * sigma * sigma))

/-- Sum of the unnormalized kernel, used for normalization. -/
def gaussKernelSum (gexp : ℚ → ℚ) (radius : ℕ) : ℚ :=
  ∑ j ∈ Finset.range (2*radius + 1), gaussKernelRaw gexp radius j

/-- Normalized kernel entry: `kernel[i] /= kernelSum`. -/
def gaussKernel (gexp : ℚ → ℚ) (radius j : ℕ) : ℚ :=
  gaussKernelRaw gexp radius j / gaussKernelSum gexp radius

/-- Horizontal pass of gaussianBlurMask: the `temp` array, with
edge-clamped horizontal sampling. -/
def gaussBlurTemp (gexp : ℚ → ℚ) (mask : List ℚ) (width radius : ℕ)
    (i : ℕ) : ℚ :=
  let x := i % width
  let y := i / width
  ∑ j ∈ Finset.range (2*radius + 1),
    maskGet mask (y * width + clampIdx ((x : ℤ) + j - radius) width) *
      gaussKernel gexp radius j

/-- gaussianBlurMask from mask.js lines 256-301: separable two-pass blur
with the normalized Gaussian kernel, vertical pass over the horizontal
pass, both edge-clamped. -/
def gaussianBlurMask (gexp : ℚ → ℚ) (mask : List ℚ)
    (width height radius : ℕ) : List ℚ :=
  (List.range (width * height)).map (fun i =>
    let x := i % width
    let y := i / width
    ∑ j ∈ Finset.range (2*radius + 1),
      gaussBlurTemp gexp mask width radius
          (clampIdx ((y : ℤ) + j - radius) height * width + x) *
        gaussKernel gexp radius j)

/-- contrastMask from mask.js lines 188-197: S-curve around 0.5 clamped
to [0,1]. -/
def contrastMask (mask : List ℚ) (strength : ℚ) : List ℚ :=
  mask.map (fun v => max 0 (min 1 (1/2 + (v - 1/2) * strength)))

/-- calculateScale from gpu-upscale.js lines 263-269. -/
def calculateScale (width height targetMinDimension : ℚ) : ℚ :=
  let minDim := min width height
  if targetMinDimension ≤ minDim then 1 else targetMinDimension / minDim

/-- Output dimensions of upscaleImageGPU (gpu-upscale.js lines 61-64):
`Math.round(src * scale)` per axis. -/
def upscaleDims (srcWidth srcHeight : ℕ) (scale : ℚ) : ℤ × ℤ :=
  (jsRound ((srcWidth : ℚ) * scale), jsRound ((srcHeight : ℚ) * scale))

/-- The effect-level table of state.js (part_012 lines 103-112): for each
effect the controlled parameter's values at levels 0..3. -/
def effectValues : List (String × List ℚ) :=
  [("silhouette", [0, 6/10, 1, 1]),
   ("lighting", [0, 1/2, 85/100, 12/10]),
   ("highcontrast", [1, 13/10, 16/10, 22/10]),
   ("crushedblacks", [0, 8, 18, 35]),
   ("grain", [0, 12, 24, 40]),
   ("vignette", [0, 30, 55, 85]),
   ("sepia", [0, 6, 14, 25]),
   ("softness", [0, 3/10, 6/10, 12/10])]

/-- Documented true-neutral value of the parameter an effect controls:
1.0 for the contrast-valued highcontrast effect, 0 for every additive one. -/
def neutralValue (effect : String) : ℚ := if effect = "highcontrast" then 1 else 0

/-- Level 0 of an effect row is the parameter's neutral value. -/
def levelZeroNeutral (e : String × List ℚ) : Prop :=
  e.2.getD 0 0 = neutralValue e.1

/-- The four level values are strictly increasing.  Every table row starts
at its neutral value and moves away from it in one direction, so strict
increase of the values is strict increase of their magnitudes. -/
def strictlyIncreasing4 (l : List ℚ) : Prop :=
  l.getD 0 0 < l.getD 1 0 ∧ l.getD 1 0 < l.getD 2 0 ∧ l.getD 2 0 < l.getD 3 0

/-- Mask validation of applyCPUFilters (part_004 lines 525-531): a
supplied mask whose length differs from the pixel count is replaced by
null before any filter touches it. -/
def cpuValidMask (sourceMask : Option (List ℚ)) (width height : ℕ) :
    Option (List ℚ) :=
  match sourceMask with
  | some mk => if mk.length ≠ width * height then none else some mk
  | none => none

/-- Mask selection of applyFiltersGPU (part_009 line 111):
`mask || new Float32Array(pixelCount).fill(1)` — an all-ones mask is
substituted only when the mask is absent; no length check is made. -/
def gpuMaskData (mask : Option (List ℚ)) (pixelCount : ℕ) : List ℚ :=
  mask.getD (List.replicate pixelCount 1)

namespace Crop

/-- Positions whose mask confidence exceeds 0.5, scanned row-major as in
cropToSubject (crop.js lines 192-203). -/
def subjectCells (mask : List ℚ) (width height : ℕ) : List (ℕ × ℕ) :=
  (List.range height).flatMap (fun y =>
    (List.range width).filterMap (fun x =>
      if 1/2 < maskGet mask (y * width + x) then some (x, y) else none))

/-- Mutable crop state (cropX, cropY, cropWidth, cropHeight) of
cropToSubject, over exact rationals. -/
structure CropState where
  cx : ℚ
  cy : ℚ
  cw : ℚ
  ch : ℚ
deriving DecidableEq

/-- Initial crop rectangle of cropToSubject (crop.js lines 211-248):
padding, 4:5 aspect fit, rule-of-thirds head placement.  The branch test
`paddedWidth / paddedHeight > 4/5` is written multiplicatively, which
agrees with the JavaScript float comparison also when a degenerate subject
makes `paddedHeight` zero. -/
def initState (minX maxX minY maxY : ℚ) : CropState :=
  let subjectWidth := maxX - minX
  let subjectHeight := maxY - minY
  let subjectCenterX := minX + subjectWidth / 2
  let headY := minY + subjectHeight * (15/100)
  let paddedWidth := subjectWidth * (14/10)
  let paddedHeight := subjectHeight * (135/100)
  let wh : ℚ × ℚ :=
    if (4/5) * paddedHeight < paddedWidth
    then (paddedWidth, paddedWidth / (4/5))
    else (paddedHeight * (4/5), paddedHeight)
  let upperThirdY := wh.2 / 3
  ⟨subjectCenterX - wh.1 / 2, headY - upperThirdY, wh.1, wh.2⟩

/-- Horizontal clamp of cropToSubject (crop.js lines 251-261). -/
def clampX (width : ℚ) (st : CropState) : CropState :=
  let cx := if st.cx < 0 then 0 else st.cx
  if width < cx + st.cw then
    let cx2 := width - st.cw
    if cx2 < 0 then ⟨0, st.cy, width, width / (4/5)⟩
    else ⟨cx2, st.cy, st.cw, st.ch⟩
  else ⟨cx, st.cy, st.cw, st.ch⟩

/-- Vertical clamp of cropToSubject (crop.js lines 263-277), including the
degenerate-branch refit that re-centers horizontally. -/
def clampY (width height subjectCenterX : ℚ) (st : CropState) : CropState :=
  let cy := if st.cy < 0 then 0 else st.cy
  if height < cy + st.ch then
    let cy2 := height - st.ch
    if cy2 < 0 then
      let ch := height
      let cw := height * (4/5)
      let cx := subjectCenterX - cw / 2
      let cx := if cx < 0 then 0 else cx
      let cx := if width < cx + cw then width - cw else cx
      ⟨cx, 0, cw, ch⟩
    else ⟨st.cx, cy2, st.cw, st.ch⟩
  else ⟨st.cx, cy, st.cw, st.ch⟩

/-- Subject-preserving shifts of cropToSubject (crop.js lines 279-304). -/
def ensureShifts (width height fMinX fMaxX fMinY fMaxY : ℚ) (st : CropState) :
    CropState :=
  let cx := if fMinX < st.cx then
      let shift := st.cx - fMinX + 10
      max 0 (st.cx - shift)
    else st.cx
  let cx := if cx + st.cw < fMaxX then
      let shift := fMaxX - (cx + st.cw) + 10
      min (width - st.cw) (cx + shift)
    else cx
  let cy := if fMinY < st.cy then max 0 (fMinY - 10) else st.cy
  let cy := if cy + st.ch < fMaxY then
      let needed := fMaxY - (cy + st.ch) + 10
      if cy + st.ch + needed ≤ height then min (height - st.ch) (cy + needed)
      else cy
    else cy
  ⟨cx, cy, st.cw, st.ch⟩

/-- The integer crop rectangle stored via state.setSubjectBounds. -/
structure Rect where
  x : ℤ
  y : ℤ
  w : ℤ
  h : ℤ
deriving DecidableEq

/-- cropToSubject (crop.js lines 168-311, the head-estimate variant):
from the mask to the stored integer crop rectangle, or none when no cell
exceeds confidence 0.5. -/
def cropToSubject (mask : List ℚ) (width height : ℕ) : Option Rect :=
  let cells := subjectCells mask width height
  if cells = [] then none else
  let minX : ℕ := cells.foldl (fun a c => min a c.1) width
  let maxX : ℕ := cells.foldl (fun a c => max a c.1) 0
  let minY : ℕ := cells.foldl (fun a c => min a c.2) height
  let maxY : ℕ := cells.foldl (fun a c => max a c.2) 0
  let subjectWidth : ℚ := (maxX : ℚ) - minX
  let subjectHeight : ℚ := (maxY : ℚ) - minY
  let subjectCenterX : ℚ := (minX : ℚ) + subjectWidth / 2
  let st0 := initState minX maxX minY maxY
  let st1 := clampX width st0
  let st2 := clampY width height subjectCenterX st1
  let fMinX : ℚ := max 0 ((minX : ℚ) - subjectWidth * (1/10))
  let fMaxX : ℚ := min (width : ℚ) ((maxX : ℚ) + subjectWidth * (1/10))
  let fMinY : ℚ := max 0 ((minY : ℚ) - subjectHeight * (5/100))
  let fMaxY : ℚ := min (height : ℚ) ((maxY : ℚ) + subjectHeight * (15/100))
  let st3 := ensureShifts width height fMinX fMaxX fMinY fMaxY st2
  some ⟨jsRound (max 0 st3.cx), jsRound (max 0 st3.cy),
        jsRound (min st3.cw ((width : ℚ) - st3.cx)),
        jsRound (min st3.ch ((height : ℚ) - st3.cy))⟩

end Crop

/-- Neutral filter settings of the end-to-end identity scenario:
contrast 1, brightness 1, everything else 0. -/
def neutralSettings : FilterSettings := ⟨1, 1, 0, 0, 0, 0, 0, 0, 0⟩

/-- A 4x4 all-mid-gray RGBA buffer: every pixel (128,128,128,255). -/
def gray4x4 : List ℚ := (List.range 16).flatMap (fun _ => [128, 128, 128, 255])

/-- Settings with shadow crush 50 and everything else neutral, the
witness input on which the CPU and GPU shadow thresholds disagree. -/
def shadowSettings : FilterSettings := ⟨1, 1, 50, 0, 0, 0, 0, 0, 0⟩

/-- A 3x3 mask field with only the center pixel on. -/
def centerMask3 : List ℚ := [0, 0, 0, 0, 1, 0, 0, 0, 0]

/-- A 3x4 confidence mask whose subject is the full third row (columns
0-2 of row 2): a wide, flat subject near the bottom of the frame. -/
def smallSubjectMask : List ℚ := [0, 0, 0, 0, 0, 0, 1, 1, 1, 0, 0, 0]

/-- The crop rectangle cropToSubject stores for smallSubjectMask in a
3x4 image. -/
def smallCropRect : Crop.Rect := ⟨0, 1, 3, 4⟩

/-- The settings record applyLevelSettings builds for silhouette level 2:
backgroundDim 1 with base contrast 1, grain 0. -/
def silhouetteSettings : FilterSettings := ⟨1, 1, 0, 0, 0, 0, 0, 1, 0⟩

/-! ## Helper lemmas -/

theorem processPixel_rand_eq (s : FilterSettings) (vig : ℚ) (maskOpt : Option ℚ)
    (r g b rand1 rand2 : ℚ) (hg : s.grain = 0) :
    CPU.processPixel s vig maskOpt r g b rand1 =
      CPU.processPixel s vig maskOpt r g b rand2 := by
  unfold CPU.processPixel
  rw [hg]
  norm_num

theorem applyTimmonsFilters_rand_eq (width height : ℕ) (data : List ℚ)
    (mask : Option (List ℚ)) (s : FilterSettings) (rng1 rng2 : ℕ → ℚ)
    (hg : s.grain = 0) :
    CPU.applyTimmonsFilters width height data mask s rng1 =
      CPU.applyTimmonsFilters width height data mask s rng2 := by
  unfold CPU.applyTimmonsFilters
  refine congrArg (List.flatMap (List.range (width * height))) (funext fun i => ?_)
  have h := processPixel_rand_eq s
    (CPU.vignetteAt width height (i % width) (i / width) s.vignette)
    (mask.map (fun mk => mk.getD i 0))
    (data.getD (4*i) 0) (data.getD (4*i+1) 0) (data.getD (4*i+2) 0)
    (rng1 i) (rng2 i) hg
  dsimp only
  rw [h]

theorem vignetteAt_zero (w h x y : ℕ) : CPU.vignetteAt w h x y 0 = 1 := by
  unfold CPU.vignetteAt
  norm_num

theorem processPixel_neutral (r : ℚ) :
    CPU.processPixel neutralSettings 1 (some 1) 128 128 128 r = (128, 128, 128) := by
  norm_num [CPU.processPixel, CPU.applyContrast, CPU.crushShadows,
    CPU.liftHighlights, neutralSettings, clamp]

theorem neutralSettings_vignette : neutralSettings.vignette = 0 := rfl

theorem gray4x4_literal : gray4x4 =
    [128, 128, 128, 255, 128, 128, 128, 255, 128, 128, 128, 255, 128, 128, 128, 255,
     128, 128, 128, 255, 128, 128, 128, 255, 128, 128, 128, 255, 128, 128, 128, 255,
     128, 128, 128, 255, 128, 128, 128, 255, 128, 128, 128, 255, 128, 128, 128, 255,
     128, 128, 128, 255, 128, 128, 128, 255, 128, 128, 128, 255, 128, 128, 128, 255] := by
  norm_num [gray4x4, List.range_succ]

theorem flatMap_congr_mem {l : List ℕ} {f g : ℕ → List ℚ}
    (h : ∀ a, a ∈ l → f a = g a) : l.flatMap f = l.flatMap g := by
  induction l with
  | nil => rfl
  | cons a t ih =>
    simp only [List.flatMap_cons]
    rw [h a (List.mem_cons_self a t), ih (fun b hb => h b (List.mem_cons_of_mem a hb))]

/-! ## Claim theorems -/

set_option maxHeartbeats 1000000 in
/-- C1: a 4x4 all-mid-gray (128) image with an all-1.0 mask and neutral
settings (contrast 1, brightness 1, shadows 0, highlights 0, vignette 0,
sepia 0, grain 0, backgroundDim 0) passes through applyTimmonsFilters
unchanged, for every stream of random draws. -/
theorem applyTimmonsFilters_neutral_identity (rng : ℕ → ℚ) :
    CPU.applyTimmonsFilters 4 4 gray4x4 (some (List.replicate 16 1))
      neutralSettings rng = gray4x4 := by
  rw [applyTimmonsFilters_rand_eq 4 4 gray4x4 _ _ rng (fun _ => 0) rfl]
  unfold CPU.applyTimmonsFilters
  conv_rhs => rw [show gray4x4 =
    (List.range 16).flatMap (fun _ => ([128, 128, 128, 255] : List ℚ)) from rfl]
  refine flatMap_congr_mem (fun i hi => ?_)
  rw [List.mem_range] at hi
  interval_cases i <;>
    norm_num [gray4x4_literal, vignetteAt_zero, processPixel_neutral,
      neutralSettings_vignette]

/-- C9: with grain = 0 the filter pass is deterministic — its output does
not depend on the random stream, so two passes over identical input agree
byte for byte. -/
theorem applyTimmonsFilters_grain0_deterministic (width height : ℕ)
    (data : List ℚ) (mask : Option (List ℚ)) (s : FilterSettings)
    (rng1 rng2 : ℕ → ℚ) (hg : s.grain = 0) :
    CPU.applyTimmonsFilters width height data mask s rng1 =
      CPU.applyTimmonsFilters width height data mask s rng2 :=
  applyTimmonsFilters_rand_eq width height data mask s rng1 rng2 hg

/-- Witness for C9 at a concrete 1x1 image and two distinct random
streams. -/
theorem applyTimmonsFilters_grain0_deterministic_witness :
    CPU.applyTimmonsFilters 1 1 [100, 50, 25, 255] none neutralSettings
        (fun _ => 0) =
      CPU.applyTimmonsFilters 1 1 [100, 50, 25, 255] none neutralSettings
        (fun _ => 1/2) :=
  applyTimmonsFilters_grain0_deterministic 1 1 [100, 50, 25, 255] none
    neutralSettings (fun _ => 0) (fun _ => 1/2) rfl

set_option maxHeartbeats 2000000 in
/-- C8: in the 3x3 field with only the center on, erodeMask with radius 1
yields the all-zero mask, and dilateMask with radius 1 turns on the center
and all four 4-connected neighbors (indices 1, 3, 5, 7 around center 4). -/
theorem erode_dilate_center3 :
    erodeMask centerMask3 3 3 1 = List.replicate 9 0 ∧
    (dilateMask centerMask3 3 3 1).getD 4 0 = 1 ∧
    (dilateMask centerMask3 3 3 1).getD 1 0 = 1 ∧
    (dilateMask centerMask3 3 3 1).getD 3 0 = 1 ∧
    (dilateMask centerMask3 3 3 1).getD 5 0 = 1 ∧
    (dilateMask centerMask3 3 3 1).getD 7 0 = 1 := by
  have he : erodeMask centerMask3 3 3 1 = List.replicate 9 0 := by
    simp [erodeMask, centerMask3, neighborIdx, maskGet, List.range_succ]
  have hd : dilateMask centerMask3 3 3 1 = [1, 1, 1, 1, 1, 1, 1, 1, 1] := by
    simp [dilateMask, centerMask3, neighborIdx, maskGet, List.range_succ]
  refine ⟨he, ?_, ?_, ?_, ?_, ?_⟩ <;> simp [hd]

/-- C2 counterexample: the claim that every effect row is level-0-neutral
and strictly increasing across levels 0..3 is false — the silhouette row
[0, 0.6, 1.0, 1.0] repeats 1.0 at levels 2 and 3. -/
theorem effectValues_strict_increase_fails :
    ¬ ∀ e ∈ effectValues, levelZeroNeutral e ∧ strictlyIncreasing4 e.2 := by
  intro h
  have hs := (h ("silhouette", [0, 6/10, 1, 1]) (by simp [effectValues])).2
  have h11 := hs.2.2
  norm_num [strictlyIncreasing4] at h11

/-- C2 amended: every effect row starts at its documented neutral value
(contrast 1.0 for highcontrast, 0 for the additive effects); all rows
except silhouette are strictly increasing across levels 0..3, and the
silhouette row increases strictly up to level 2 and is flat at level 3. -/
theorem effectValues_level_table :
    (∀ e ∈ effectValues, levelZeroNeutral e) ∧
    (∀ e ∈ effectValues, e.1 ≠ "silhouette" → strictlyIncreasing4 e.2) ∧
    (∀ e ∈ effectValues, e.1 = "silhouette" →
      e.2.getD 0 0 < e.2.getD 1 0 ∧ e.2.getD 1 0 < e.2.getD 2 0 ∧
      e.2.getD 2 0 ≤ e.2.getD 3 0) := by
  refine ⟨?_, ?_, ?_⟩ <;>
    · intro e he
      fin_cases he <;>
        simp [levelZeroNeutral, neutralValue, strictlyIncreasing4] <;>
        norm_num

/-- Witness for C2 amended at the lighting and silhouette rows. -/
theorem effectValues_level_table_witness :
    levelZeroNeutral ("lighting", ([0, 1/2, 85/100, 12/10] : List ℚ)) ∧
    strictlyIncreasing4 ([0, 1/2, 85/100, 12/10] : List ℚ) ∧
    (([0, 6/10, 1, 1] : List ℚ).getD 0 0 < ([0, 6/10, 1, 1] : List ℚ).getD 1 0 ∧
     ([0, 6/10, 1, 1] : List ℚ).getD 1 0 < ([0, 6/10, 1, 1] : List ℚ).getD 2 0 ∧
     ([0, 6/10, 1, 1] : List ℚ).getD 2 0 ≤ ([0, 6/10, 1, 1] : List ℚ).getD 3 0) :=
  ⟨effectValues_level_table.1 ("lighting", [0, 1/2, 85/100, 12/10])
     (by simp [effectValues]),
   effectValues_level_table.2.1 ("lighting", [0, 1/2, 85/100, 12/10])
     (by simp [effectValues]) (by simp),
   effectValues_level_table.2.2 ("silhouette", [0, 6/10, 1, 1])
     (by simp [effectValues]) rfl⟩

/-- C5 counterexample: upscaleImageGPU does not return unchanged
dimensions for a scale factor below 1 — at scale 1/2 a 4x4 image comes
back 2x2. -/
theorem upscaleDims_downscales :
    (1/2 : ℚ) ≤ 1 ∧ upscaleDims 4 4 (1/2) ≠ ((4 : ℤ), (4 : ℤ)) := by
  constructor
  · norm_num
  · unfold upscaleDims jsRound
    norm_num

/-- C5 amended: for positive image dimensions calculateScale returns 1
when the smaller dimension already meets the target and
target / min(width, height) otherwise, never a value below 1; and an
upscale request with scale factor exactly 1 keeps both dimensions (the
callers only invoke the upscaler when calculateScale exceeds 1, but for
scale below 1 the function itself returns round(dim * scale), a smaller
image). -/
theorem calculateScale_floor (width height target : ℚ)
    (hw : 0 < width) (hh : 0 < height) :
    1 ≤ calculateScale width height target ∧
    calculateScale width height target =
      (if target ≤ min width height then 1 else target / min width height) ∧
    ∀ w h : ℕ, upscaleDims w h 1 = ((w : ℤ), (h : ℤ)) := by
  have hmin : 0 < min width height := lt_min hw hh
  refine ⟨?_, rfl, ?_⟩
  · simp only [calculateScale]
    split_ifs with ht
    · exact le_refl 1
    · push_neg at ht
      exact le_of_lt ((one_lt_div hmin).mpr ht)
  · intro w h
    unfold upscaleDims jsRound
    have hfl : ∀ n : ℕ, ⌊(n : ℚ) * 1 + 1/2⌋ = (n : ℤ) := by
      intro n
      rw [mul_one]
      rw [show ((n : ℚ) + 1/2) = ((n : ℤ) : ℚ) + 1/2 by push_cast; ring]
      rw [Int.floor_int_add]
      norm_num
    rw [hfl w, hfl h]

/-- Witness for C5 amended at a 4x4 image and target 1600. -/
theorem calculateScale_floor_witness :
    1 ≤ calculateScale 4 4 1600 ∧
    calculateScale 4 4 1600 =
      (if (1600 : ℚ) ≤ min 4 4 then 1 else 1600 / min 4 4) ∧
    ∀ w h : ℕ, upscaleDims w h 1 = ((w : ℤ), (h : ℤ)) :=
  calculateScale_floor 4 4 1600 (by norm_num) (by norm_num)

/-- C7 counterexample: the GPU filter path performs no mask length check —
a one-entry mask paired with a two-pixel image is passed through as-is,
neither replaced by the all-ones mask nor matching the pixel count. -/
theorem gpuMaskData_passes_mismatch :
    gpuMaskData (some [1/2]) 2 = [1/2] ∧
    ([(1/2 : ℚ)]).length ≠ 2 ∧
    gpuMaskData (some [1/2]) 2 ≠ List.replicate 2 1 := by
  refine ⟨rfl, by norm_num, ?_⟩
  intro h
  exact absurd (congrArg List.length h) (by simp [gpuMaskData])

/-- C7 amended: the CPU filter path (applyCPUFilters) detects a mask whose
length differs from the pixel count and replaces it by null (treated as
"no mask"), keeping a matching mask unchanged; the GPU path substitutes
the all-1.0 mask only when no mask is supplied at all. -/
theorem maskMismatch_handling :
    (∀ (mk : List ℚ) (width height : ℕ), mk.length ≠ width * height →
      cpuValidMask (some mk) width height = none) ∧
    (∀ (mk : List ℚ) (width height : ℕ), mk.length = width * height →
      cpuValidMask (some mk) width height = some mk) ∧
    (∀ n : ℕ, gpuMaskData none n = List.replicate n 1) := by
  refine ⟨?_, ?_, ?_⟩
  · intro mk width height hne
    unfold cpuValidMask
    simp [hne]
  · intro mk width height heq
    unfold cpuValidMask
    simp [heq]
  · intro n
    rfl

/-- Witness for C7 amended at a one-entry mask and a 2x1 image. -/
theorem maskMismatch_handling_witness :
    cpuValidMask (some [1/2]) 2 1 = none ∧
    cpuValidMask (some [1/2, 1/2]) 2 1 = some [1/2, 1/2] ∧
    gpuMaskData none 2 = List.replicate 2 1 :=
  ⟨maskMismatch_handling.1 [1/2] 2 1 (by decide),
   maskMismatch_handling.2.1 [1/2, 1/2] 2 1 (by decide),
   maskMismatch_handling.2.2 2⟩

/-- C6: with backgroundDim 1 a background pixel (mask value 0) is driven
to exactly 0 on every channel: by the power-curve dim step of the first
variant (using only that `Math.pow 0 3 = 0`), by the linear dim step of
the second variant, and — through grain 0 and contrast at least 1 — by
the entire per-pixel pipeline of the second variant, whose output is
exactly (0,0,0) whatever the input color, vignette entry, brightness,
shadows, highlights or sepia settings. -/
theorem backgroundDim_full_black :
    (∀ powFn : ℚ → ℚ → ℚ, powFn 0 3 = 0 → ∀ r g b : ℚ,
      CPU.dimStepPow powFn 1 0 r g b = (0, 0, 0)) ∧
    (∀ r g b : ℚ, CPU.dimStepLinear 1 0 r g b = (0, 0, 0)) ∧
    (∀ (s : FilterSettings) (vig r g b rand : ℚ), s.backgroundDim = 1 →
      1 ≤ s.contrast → s.grain = 0 →
      CPU.processPixel s vig (some 0) r g b rand = (0, 0, 0)) := by
  have hlin : ∀ r g b : ℚ, CPU.dimStepLinear 1 0 r g b = (0, 0, 0) := by
    intro r g b
    simp [CPU.dimStepLinear, lerp]
  refine ⟨?_, hlin, ?_⟩
  · intro powFn hp r g b
    unfold CPU.dimStepPow smoothstep
    norm_num [hp, clamp, lerp]
  · intro s vig r g b rand hd hc hg
    have hcontrast : CPU.applyContrast 0 s.contrast = 0 := by
      unfold CPU.applyContrast clamp
      have h1 : (128 : ℚ) + (0 - 128) * s.contrast ≤ 0 := by linarith
      rw [max_eq_left h1]
      norm_num
    unfold CPU.processPixel
    rw [hd, hg]
    norm_num [hlin, hcontrast, CPU.crushShadows, CPU.liftHighlights, clamp]

/-- Witness for C6 at concrete colors and the silhouette-level-2 settings. -/
theorem backgroundDim_full_black_witness :
    CPU.dimStepPow (fun _ _ => 0) 1 0 5 6 7 = (0, 0, 0) ∧
    CPU.dimStepLinear 1 0 5 6 7 = (0, 0, 0) ∧
    CPU.processPixel silhouetteSettings 1 (some 0) 5 6 7 0 = (0, 0, 0) :=
  ⟨backgroundDim_full_black.1 (fun _ _ => 0) rfl 5 6 7,
   backgroundDim_full_black.2.1 5 6 7,
   backgroundDim_full_black.2.2 silhouetteSettings 1 5 6 7 0 rfl
     (by norm_num [silhouetteSettings]) rfl⟩

/-- The subject cells of the 3x4 counterexample mask: the third row. -/
theorem smallSubjectMask_cells :
    Crop.subjectCells smallSubjectMask 3 4 = [(0, 2), (1, 2), (2, 2)] := by
  norm_num [Crop.subjectCells, smallSubjectMask, maskGet, List.range_succ,
    List.filterMap_cons]

set_option maxHeartbeats 1000000 in
theorem cropSmall_eval :
    Crop.cropToSubject smallSubjectMask 3 4 = some smallCropRect := by
  unfold Crop.cropToSubject smallCropRect
  rw [smallSubjectMask_cells]
  norm_num [Crop.initState, Crop.clampX, Crop.clampY, Crop.ensureShifts,
    jsRound]
  exact fun h => absurd h (by simp)

/-- C4 counterexample: on a 3x4 image whose subject is the full third row,
cropToSubject stores the rectangle (x 0, y 1, width 3, height 4), whose
bottom edge y + height = 5 lies outside the 4-pixel-tall source image. -/
theorem cropToSubject_exceeds_bounds :
    Crop.cropToSubject smallSubjectMask 3 4 = some smallCropRect ∧
    ¬ (smallCropRect.y + smallCropRect.h ≤ (4 : ℤ)) :=
  ⟨cropSmall_eval, by norm_num [smallCropRect]⟩

theorem maskGet_bounds {mask : List ℚ} (hm : ∀ v ∈ mask, 0 ≤ v ∧ v ≤ 1)
    (i : ℕ) : 0 ≤ maskGet mask i ∧ maskGet mask i ≤ 1 := by
  unfold maskGet
  rcases lt_or_le i mask.length with hi | hi
  · rw [List.getD_eq_getElem?_getD, List.getElem?_eq_getElem hi]
    exact hm _ (List.getElem_mem hi)
  · rw [List.getD_eq_getElem?_getD, List.getElem?_eq_none hi]
    norm_num

theorem foldl_min_bounds (g : ℕ → ℚ) (hg : ∀ n, 0 ≤ g n ∧ g n ≤ 1) :
    ∀ (l : List ℕ) (a : ℚ), 0 ≤ a → a ≤ 1 →
      0 ≤ l.foldl (fun acc x => min acc (g x)) a ∧
        l.foldl (fun acc x => min acc (g x)) a ≤ 1 := by
  intro l
  induction l with
  | nil => exact fun a h0 h1 => ⟨h0, h1⟩
  | cons x t ih =>
    intro a h0 h1
    exact ih (min a (g x)) (le_min h0 (hg x).1) (min_le_of_left_le h1)

theorem foldl_max_bounds (g : ℕ → ℚ) (hg : ∀ n, 0 ≤ g n ∧ g n ≤ 1) :
    ∀ (l : List ℕ) (a : ℚ), 0 ≤ a → a ≤ 1 →
      0 ≤ l.foldl (fun acc x => max acc (g x)) a ∧
        l.foldl (fun acc x => max acc (g x)) a ≤ 1 := by
  intro l
  induction l with
  | nil => exact fun a h0 h1 => ⟨h0, h1⟩
  | cons x t ih =>
    intro a h0 h1
    exact ih (max a (g x)) (le_max_of_le_left h0) (max_le h1 (hg x).2)

theorem erodeMask_bounds {mask : List ℚ} (width height radius : ℕ)
    (hm : ∀ v ∈ mask, 0 ≤ v ∧ v ≤ 1) :
    ∀ v ∈ erodeMask mask width height radius, 0 ≤ v ∧ v ≤ 1 := by
  intro v hv
  unfold erodeMask at hv
  simp only [List.mem_map, List.mem_range] at hv
  obtain ⟨i, _, rfl⟩ := hv
  exact foldl_min_bounds (maskGet mask) (maskGet_bounds hm) _ _
    (maskGet_bounds hm i).1 (maskGet_bounds hm i).2

theorem dilateMask_bounds {mask : List ℚ} (width height radius : ℕ)
    (hm : ∀ v ∈ mask, 0 ≤ v ∧ v ≤ 1) :
    ∀ v ∈ dilateMask mask width height radius, 0 ≤ v ∧ v ≤ 1 := by
  intro v hv
  unfold dilateMask at hv
  simp only [List.mem_map, List.mem_range] at hv
  obtain ⟨i, _, rfl⟩ := hv
  exact foldl_max_bounds (maskGet mask) (maskGet_bounds hm) _ _
    (maskGet_bounds hm i).1 (maskGet_bounds hm i).2

theorem gaussKernelSum_pos (gexp : ℚ → ℚ) (hgexp : ∀ q, 0 < gexp q)
    (radius : ℕ) : 0 < gaussKernelSum gexp radius :=
  Finset.sum_pos (fun j _ => hgexp _)
    (Finset.nonempty_range_iff.mpr (by omega))

theorem gaussKernel_nonneg (gexp : ℚ → ℚ) (hgexp : ∀ q, 0 < gexp q)
    (radius j : ℕ) : 0 ≤ gaussKernel gexp radius j :=
  div_nonneg (le_of_lt (hgexp _)) (le_of_lt (gaussKernelSum_pos gexp hgexp radius))

theorem gaussKernel_sum_one (gexp : ℚ → ℚ) (hgexp : ∀ q, 0 < gexp q)
    (radius : ℕ) :
    ∑ j ∈ Finset.range (2*radius + 1), gaussKernel gexp radius j = 1 := by
  unfold gaussKernel
  rw [← Finset.sum_div]
  exact div_self (ne_of_gt (gaussKernelSum_pos gexp hgexp radius))

theorem convex_sum_bounds (k : ℕ) (v w : ℕ → ℚ) (hw : ∀ j, 0 ≤ w j)
    (hsum : ∑ j ∈ Finset.range k, w j = 1)
    (hv : ∀ j, 0 ≤ v j ∧ v j ≤ 1) :
    0 ≤ ∑ j ∈ Finset.range k, v j * w j ∧
      (∑ j ∈ Finset.range k, v j * w j) ≤ 1 := by
  constructor
  · exact Finset.sum_nonneg (fun j _ => mul_nonneg (hv j).1 (hw j))
  · calc ∑ j ∈ Finset.range k, v j * w j
        ≤ ∑ j ∈ Finset.range k, w j :=
          Finset.sum_le_sum (fun j _ => mul_le_of_le_one_left (hw j) (hv j).2)
      _ = 1 := hsum

theorem gaussBlurTemp_bounds (gexp : ℚ → ℚ) (hgexp : ∀ q, 0 < gexp q)
    {mask : List ℚ} (width radius : ℕ)
    (hm : ∀ v ∈ mask, 0 ≤ v ∧ v ≤ 1) (i : ℕ) :
    0 ≤ gaussBlurTemp gexp mask width radius i ∧
      gaussBlurTemp gexp mask width radius i ≤ 1 := by
  unfold gaussBlurTemp
  exact convex_sum_bounds (2*radius + 1) _ _
    (gaussKernel_nonneg gexp hgexp radius)
    (gaussKernel_sum_one gexp hgexp radius)
    (fun j => maskGet_bounds hm _)

theorem gaussianBlurMask_bounds (gexp : ℚ → ℚ) (hgexp : ∀ q, 0 < gexp q)
    {mask : List ℚ} (width height radius : ℕ)
    (hm : ∀ v ∈ mask, 0 ≤ v ∧ v ≤ 1) :
    ∀ v ∈ gaussianBlurMask gexp mask width height radius, 0 ≤ v ∧ v ≤ 1 := by
  intro v hv
  unfold gaussianBlurMask at hv
  simp only [List.mem_map, List.mem_range] at hv
  obtain ⟨i, _, rfl⟩ := hv
  exact convex_sum_bounds (2*radius + 1) _ _
    (gaussKernel_nonneg gexp hgexp radius)
    (gaussKernel_sum_one gexp hgexp radius)
    (fun j => gaussBlurTemp_bounds gexp hgexp width radius hm _)

/-- C10: every mask operation preserves the [0,1] confidence range: erode
and dilate (min/max of in-range values), the separable Gaussian blur (a
convex combination under any strictly positive exponential and radius at
least 1 — radius 0 makes sigma zero and is degenerate in the source), and
the contrast curve (explicitly clamped), for any width, height, radius
and strength. -/
theorem maskOps_preserve_unit_interval (mask : List ℚ)
    (width height radius : ℕ) (hm : ∀ v ∈ mask, 0 ≤ v ∧ v ≤ 1) :
    (∀ v ∈ erodeMask mask width height radius, 0 ≤ v ∧ v ≤ 1) ∧
    (∀ v ∈ dilateMask mask width height radius, 0 ≤ v ∧ v ≤ 1) ∧
    (∀ gexp : ℚ → ℚ, (∀ q, 0 < gexp q) → 1 ≤ radius →
      ∀ v ∈ gaussianBlurMask gexp mask width height radius, 0 ≤ v ∧ v ≤ 1) ∧
    (∀ strength : ℚ, ∀ v ∈ contrastMask mask strength, 0 ≤ v ∧ v ≤ 1) := by
  refine ⟨erodeMask_bounds width height radius hm,
    dilateMask_bounds width height radius hm,
    fun gexp hgexp _ => gaussianBlurMask_bounds gexp hgexp width height radius hm,
    ?_⟩
  intro strength v hv
  unfold contrastMask at hv
  simp only [List.mem_map] at hv
  obtain ⟨u, _, rfl⟩ := hv
  constructor
  · exact le_max_left 0 _
  · exact max_le (by norm_num) (min_le_left 1 _)

/-- Witness for C10 on the one-pixel mask [1/2] with the constant-1
exponential: its hypotheses hold and the erode and blur results stay in
[0,1] at their single entries. -/
theorem maskOps_preserve_unit_interval_witness :
    (∀ v ∈ ([1/2] : List ℚ), 0 ≤ v ∧ v ≤ 1) ∧
    (∀ v ∈ erodeMask [1/2] 1 1 1, 0 ≤ v ∧ v ≤ 1) ∧
    (∀ v ∈ gaussianBlurMask (fun _ => 1) [1/2] 1 1 1, 0 ≤ v ∧ v ≤ 1) :=
  ⟨by norm_num,
   (maskOps_preserve_unit_interval [1/2] 1 1 1 (by norm_num)).1,
   (maskOps_preserve_unit_interval [1/2] 1 1 1 (by norm_num)).2.2.1
     (fun _ => 1) (fun _ => one_pos) (le_refl 1)⟩

theorem clamp_scale (v : ℚ) : 255 * clamp (v/255) 0 1 = clamp v 0 255 := by
  unfold clamp
  rw [min_def, max_def, min_def, max_def]
  split_ifs <;> linarith

theorem clamp_eq_self {v lo hi : ℚ} (h0 : lo ≤ v) (h1 : v ≤ hi) :
    clamp v lo hi = v := by
  unfold clamp
  rw [max_eq_right h0, min_eq_right h1]

theorem applyContrast_one (v : ℚ) : CPU.applyContrast v 1 = clamp v 0 255 := by
  unfold CPU.applyContrast
  ring_nf

theorem gpuApplyContrast_one (v : ℚ) : GPU.applyContrast v 1 = clamp v 0 1 := by
  unfold GPU.applyContrast
  ring_nf

theorem crushShadows_zero_amount (v : ℚ) : CPU.crushShadows v 0 = v := by
  unfold CPU.crushShadows
  split_ifs <;> ring

theorem gpuCrushShadows_zero_amount (v : ℚ) : GPU.crushShadows v 0 = v := by
  unfold GPU.crushShadows
  split_ifs <;> ring

theorem liftHighlights_zero_amount (v : ℚ) : CPU.liftHighlights v 0 = v := by
  unfold CPU.liftHighlights
  split_ifs <;> ring

theorem gpuLiftHighlights_zero_amount (v : ℚ) : GPU.liftHighlights v 0 = v := by
  unfold GPU.liftHighlights
  split_ifs <;> ring

theorem vignette_eq (w h x y : ℕ) (i : ℚ) :
    GPU.calcVignette (x : ℚ) (y : ℚ) (w : ℚ) (h : ℚ) i = CPU.vignetteAt w h x y i := rfl

theorem clamp_scale96 (v : ℚ) : clamp (v/255) 0 1 = clamp v 0 255 / 255 := by
  rw [eq_div_iff (by norm_num : (255:ℚ) ≠ 0), mul_comm, clamp_scale]

theorem mix_div (a c t : ℚ) :
    GPU.mix (a * (1 - c) / 255) (a/255) t = lerp (a * (1 - c)) a t / 255 := by
  unfold GPU.mix lerp
  ring

theorem gray_div (a c e : ℚ) :
    299/1000 * (a/255) + 587/1000 * (c/255) + 114/1000 * (e/255) =
      (299/1000 * a + 587/1000 * c + 114/1000 * e) / 255 := by
  ring

theorem div255_mul (a c : ℚ) : a/255 * c = a * c / 255 := by ring

theorem add_div255 (a c : ℚ) : a/255 + c/255 = (a + c) / 255 := by ring

theorem sub_div255 (a c : ℚ) : a/255 - c/255 = (a - c) / 255 := by ring

set_option maxHeartbeats 4000000 in
/-- C3 amended: the CPU scalar path (applyDirectionalLighting then the
applyTimmonsFilters pixel body, 0-255 space) and the GPU FILTER_SHADER
pixel body ([0,1] space) agree exactly — CPU = 255 * GPU — on the
background-dim, grayscale, brightness, vignette and sepia stages, for
every pixel, mask value in [0,1], backgroundDim in [0,1] and position,
provided the stages whose constants differ between the two paths are
neutral: contrast 1 (midpoints 128 vs 127.5), shadows 0 (thresholds 128
vs 127.5), highlights 0 (thresholds 180 vs 178.5), lightBoost 0 (the
paths order lighting and dimming differently), grain 0 (exempt). -/
theorem cpu_gpu_pixel_equiv (sqrtFn : ℚ → ℚ) (s : FilterSettings)
    (seed rand : ℚ) (width height x y : ℕ) (m r g b : ℚ)
    (hc : s.contrast = 1) (hsh : s.shadows = 0) (hhl : s.highlights = 0)
    (hlb : s.lightBoost = 0) (hgr : s.grain = 0)
    (hd0 : 0 ≤ s.backgroundDim) (hd1 : s.backgroundDim ≤ 1)
    (hm0 : 0 ≤ m) (hm1 : m ≤ 1)
    (hr0 : 0 ≤ r) (hr1 : r ≤ 255) (hg0 : 0 ≤ g) (hg1 : g ≤ 255)
    (hb0 : 0 ≤ b) (hb1 : b ≤ 255) :
    CPU.pipelinePixel sqrtFn s width height x y m r g b rand =
      (255 * (GPU.processPixel sqrtFn s seed width height x y m (r/255) (g/255) (b/255)).1,
       255 * (GPU.processPixel sqrtFn s seed width height x y m (r/255) (g/255) (b/255)).2.1,
       255 * (GPU.processPixel sqrtFn s seed width height x y m (r/255) (g/255) (b/255)).2.2) := by
  have hlit : CPU.pipelinePixel sqrtFn s width height x y m r g b rand
      = CPU.processPixel s (CPU.vignetteAt width height x y s.vignette) (some m) r g b rand := by
    unfold CPU.pipelinePixel CPU.applyDirectionalLightingPixel
    rw [hlb]
    simp
  have hlight1 : GPU.calcLighting sqrtFn (x : ℚ) (y : ℚ) (width : ℚ) (height : ℚ) m s.lightBoost = 1 := by
    unfold GPU.calcLighting
    rw [hlb]
    simp
  rw [hlit]
  unfold CPU.processPixel GPU.processPixel
  rw [hlight1, hc, hsh, hhl, hgr]
  simp only [Option.getD_some, lt_irrefl, if_false, mul_one,
    applyContrast_one, gpuApplyContrast_one, crushShadows_zero_amount,
    gpuCrushShadows_zero_amount, liftHighlights_zero_amount,
    gpuLiftHighlights_zero_amount, vignette_eq]
  split_ifs with h1 h2 h2
  · have hLr0 : (0:ℚ) ≤ lerp (r * (1 - s.backgroundDim)) r m := by
      unfold lerp
      nlinarith [mul_nonneg hr0 (show (0:ℚ) ≤ 1 - s.backgroundDim by linarith),
        mul_nonneg (mul_nonneg hr0 hd0) hm0]
    have hLr1 : lerp (r * (1 - s.backgroundDim)) r m ≤ 255 := by
      unfold lerp
      nlinarith [mul_nonneg (mul_nonneg hr0 hd0)
        (show (0:ℚ) ≤ 1 - m by linarith)]
    have hLg0 : (0:ℚ) ≤ lerp (g * (1 - s.backgroundDim)) g m := by
      unfold lerp
      nlinarith [mul_nonneg hg0 (show (0:ℚ) ≤ 1 - s.backgroundDim by linarith),
        mul_nonneg (mul_nonneg hg0 hd0) hm0]
    have hLg1 : lerp (g * (1 - s.backgroundDim)) g m ≤ 255 := by
      unfold lerp
      nlinarith [mul_nonneg (mul_nonneg hg0 hd0)
        (show (0:ℚ) ≤ 1 - m by linarith)]
    have hLb0 : (0:ℚ) ≤ lerp (b * (1 - s.backgroundDim)) b m := by
      unfold lerp
      nlinarith [mul_nonneg hb0 (show (0:ℚ) ≤ 1 - s.backgroundDim by linarith),
        mul_nonneg (mul_nonneg hb0 hd0) hm0]
    have hLb1 : lerp (b * (1 - s.backgroundDim)) b m ≤ 255 := by
      unfold lerp
      nlinarith [mul_nonneg (mul_nonneg hb0 hd0)
        (show (0:ℚ) ≤ 1 - m by linarith)]
    have er := clamp_eq_self (div_nonneg hLr0 (by norm_num))
      ((div_le_one (by norm_num)).mpr hLr1)
    have eg := clamp_eq_self (div_nonneg hLg0 (by norm_num))
      ((div_le_one (by norm_num)).mpr hLg1)
    have eb := clamp_eq_self (div_nonneg hLb0 (by norm_num))
      ((div_le_one (by norm_num)).mpr hLb1)
    have ec := clamp_scale96
      ((299/1000 * lerp (r * (1 - s.backgroundDim)) r m +
        587/1000 * lerp (g * (1 - s.backgroundDim)) g m +
        114/1000 * lerp (b * (1 - s.backgroundDim)) b m) * s.brightness)
    simp only [CPU.dimStepLinear, mix_div, er, eg, eb, gray_div, div255_mul,
      ec, add_div255, sub_div255, clamp_scale]
  · have er := clamp_eq_self (div_nonneg hr0 (by norm_num))
      ((div_le_one (by norm_num)).mpr hr1)
    have eg := clamp_eq_self (div_nonneg hg0 (by norm_num))
      ((div_le_one (by norm_num)).mpr hg1)
    have eb := clamp_eq_self (div_nonneg hb0 (by norm_num))
      ((div_le_one (by norm_num)).mpr hb1)
    have ec := clamp_scale96
      ((299/1000 * r + 587/1000 * g + 114/1000 * b) * s.brightness)
    simp only [er, eg, eb, gray_div, div255_mul, ec, add_div255, sub_div255,
      clamp_scale]
  · have hLr0 : (0:ℚ) ≤ lerp (r * (1 - s.backgroundDim)) r m := by
      unfold lerp
      nlinarith [mul_nonneg hr0 (show (0:ℚ) ≤ 1 - s.backgroundDim by linarith),
        mul_nonneg (mul_nonneg hr0 hd0) hm0]
    have hLr1 : lerp (r * (1 - s.backgroundDim)) r m ≤ 255 := by
      unfold lerp
      nlinarith [mul_nonneg (mul_nonneg hr0 hd0)
        (show (0:ℚ) ≤ 1 - m by linarith)]
    have hLg0 : (0:ℚ) ≤ lerp (g * (1 - s.backgroundDim)) g m := by
      unfold lerp
      nlinarith [mul_nonneg hg0 (show (0:ℚ) ≤ 1 - s.backgroundDim by linarith),
        mul_nonneg (mul_nonneg hg0 hd0) hm0]
    have hLg1 : lerp (g * (1 - s.backgroundDim)) g m ≤ 255 := by
      unfold lerp
      nlinarith [mul_nonneg (mul_nonneg hg0 hd0)
        (show (0:ℚ) ≤ 1 - m by linarith)]
    have hLb0 : (0:ℚ) ≤ lerp (b * (1 - s.backgroundDim)) b m := by
      unfold lerp
      nlinarith [mul_nonneg hb0 (show (0:ℚ) ≤ 1 - s.backgroundDim by linarith),
        mul_nonneg (mul_nonneg hb0 hd0) hm0]
    have hLb1 : lerp (b * (1 - s.backgroundDim)) b m ≤ 255 := by
      unfold lerp
      nlinarith [mul_nonneg (mul_nonneg hb0 hd0)
        (show (0:ℚ) ≤ 1 - m by linarith)]
    have er := clamp_eq_self (div_nonneg hLr0 (by norm_num))
      ((div_le_one (by norm_num)).mpr hLr1)
    have eg := clamp_eq_self (div_nonneg hLg0 (by norm_num))
      ((div_le_one (by norm_num)).mpr hLg1)
    have eb := clamp_eq_self (div_nonneg hLb0 (by norm_num))
      ((div_le_one (by norm_num)).mpr hLb1)
    have ec := clamp_scale96
      ((299/1000 * lerp (r * (1 - s.backgroundDim)) r m +
        587/1000 * lerp (g * (1 - s.backgroundDim)) g m +
        114/1000 * lerp (b * (1 - s.backgroundDim)) b m) * s.brightness)
    simp only [CPU.dimStepLinear, mix_div, er, eg, eb, gray_div, div255_mul,
      ec, add_div255, sub_div255, clamp_scale]
  · have er := clamp_eq_self (div_nonneg hr0 (by norm_num))
      ((div_le_one (by norm_num)).mpr hr1)
    have eg := clamp_eq_self (div_nonneg hg0 (by norm_num))
      ((div_le_one (by norm_num)).mpr hg1)
    have eb := clamp_eq_self (div_nonneg hb0 (by norm_num))
      ((div_le_one (by norm_num)).mpr hb1)
    have ec := clamp_scale96
      ((299/1000 * r + 587/1000 * g + 114/1000 * b) * s.brightness)
    simp only [er, eg, eb, gray_div, div255_mul, ec, add_div255, sub_div255,
      clamp_scale]


/-- Witness for C3 amended: both paths at a mid-gray pixel with neutral
settings. -/
theorem cpu_gpu_pixel_equiv_witness :
    CPU.pipelinePixel (fun _ => 0) neutralSettings 1 1 0 0 1 100 100 100 0 =
      (255 * (GPU.processPixel (fun _ => 0) neutralSettings 0 1 1 0 0 1
          (100/255) (100/255) (100/255)).1,
       255 * (GPU.processPixel (fun _ => 0) neutralSettings 0 1 1 0 0 1
          (100/255) (100/255) (100/255)).2.1,
       255 * (GPU.processPixel (fun _ => 0) neutralSettings 0 1 1 0 0 1
          (100/255) (100/255) (100/255)).2.2) :=
  cpu_gpu_pixel_equiv (fun _ => 0) neutralSettings 0 0 1 1 0 0 1 100 100 100
    rfl rfl rfl rfl rfl (by norm_num [neutralSettings])
    (by norm_num [neutralSettings]) (by norm_num) (by norm_num)
    (by norm_num) (by norm_num) (by norm_num) (by norm_num) (by norm_num)
    (by norm_num)

set_option maxHeartbeats 1000000 in
/-- C3 counterexample: the two paths are not equivalent in general.  At
the pixel (128,128,127) with shadow crush 50 and everything else neutral,
the luminance is 127.886: the CPU path crushes it (below its threshold
128) to 63.943 while the GPU path leaves it unchanged (above its
threshold 0.5 = 127.5), so the outputs differ by a factor of two. -/
theorem cpu_gpu_pixel_inequiv :
    CPU.pipelinePixel (fun _ => 0) shadowSettings 1 1 0 0 1 128 128 127 0 ≠
      (255 * (GPU.processPixel (fun _ => 0) shadowSettings 0 1 1 0 0 1
          (128/255) (128/255) (127/255)).1,
       255 * (GPU.processPixel (fun _ => 0) shadowSettings 0 1 1 0 0 1
          (128/255) (128/255) (127/255)).2.1,
       255 * (GPU.processPixel (fun _ => 0) shadowSettings 0 1 1 0 0 1
          (128/255) (128/255) (127/255)).2.2) := by
  norm_num [CPU.pipelinePixel, CPU.processPixel, CPU.applyDirectionalLightingPixel,
    CPU.dimStepLinear, CPU.applyContrast, CPU.crushShadows, CPU.liftHighlights,
    CPU.vignetteAt, GPU.processPixel, GPU.calcLighting, GPU.applyContrast,
    GPU.crushShadows, GPU.liftHighlights, GPU.calcVignette, GPU.mix,
    shadowSettings, clamp, lerp, Prod.ext_iff]


theorem initState_spec (minX maxX minY maxY : ℚ) (hx : minX ≤ maxX)
    (hy : minY ≤ maxY) :
    (Crop.initState minX maxX minY maxY).cw =
      4/5 * (Crop.initState minX maxX minY maxY).ch ∧
    0 ≤ (Crop.initState minX maxX minY maxY).ch := by
  unfold Crop.initState
  dsimp only
  split_ifs with hb <;> constructor <;> dsimp only <;>
    first
      | ring1
      | linarith
      | (field_simp; ring1)
      | (field_simp; linarith)

theorem clampX_spec (w : ℚ) (st : Crop.CropState) (hw : 0 ≤ w)
    (h : st.cw = 4/5 * st.ch ∧ 0 ≤ st.ch) :
    0 ≤ (Crop.clampX w st).cx ∧
    (Crop.clampX w st).cx + (Crop.clampX w st).cw ≤ w ∧
    (Crop.clampX w st).cw = 4/5 * (Crop.clampX w st).ch ∧
    0 ≤ (Crop.clampX w st).ch := by
  obtain ⟨hr, hch⟩ := h
  unfold Crop.clampX
  dsimp only
  split_ifs with h1 h2 h3 h2 h3 <;>
    refine ⟨?_, ?_, ?_, ?_⟩ <;> dsimp only <;>
    first
      | ring1
      | linarith
      | (field_simp; ring1)
      | (field_simp; linarith)

theorem clampY_spec (w h scx : ℚ) (st : Crop.CropState) (hw : 0 ≤ w)
    (hh : 0 ≤ h) (hx1 : 0 ≤ st.cx) (hx2 : st.cx + st.cw ≤ w)
    (hr : st.cw = 4/5 * st.ch) (hch : 0 ≤ st.ch) :
    0 ≤ (Crop.clampY w h scx st).cx ∧
    (Crop.clampY w h scx st).cx + (Crop.clampY w h scx st).cw ≤ w ∧
    (Crop.clampY w h scx st).cw = 4/5 * (Crop.clampY w h scx st).ch ∧
    0 ≤ (Crop.clampY w h scx st).ch ∧
    0 ≤ (Crop.clampY w h scx st).cy ∧
    (Crop.clampY w h scx st).cy + (Crop.clampY w h scx st).ch ≤ h := by
  unfold Crop.clampY
  dsimp only
  split_ifs with h1 h2 h3 h4 h5 h2 h3 h4 h5 <;>
    refine ⟨?_, ?_, ?_, ?_, ?_, ?_⟩ <;> dsimp only <;>
    first
      | ring1
      | linarith
      | (field_simp; ring1)
      | (field_simp; linarith)

theorem shiftLow (x p e : ℚ) (h0 : 0 ≤ x) (he : p < x → e ≤ x) :
    0 ≤ (if p < x then max 0 e else x) ∧ (if p < x then max 0 e else x) ≤ x := by
  split_ifs with h
  · exact ⟨le_max_left 0 e, max_le h0 (he h)⟩
  · exact ⟨h0, le_refl x⟩

theorem shiftHigh (x c w q : ℚ) (h0 : 0 ≤ x) (h1 : x + c ≤ w) :
    0 ≤ (if x + c < q then min (w - c) (x + (q - (x + c) + 10)) else x) ∧
    (if x + c < q then min (w - c) (x + (q - (x + c) + 10)) else x) + c ≤ w := by
  split_ifs with h
  · constructor
    · exact le_min (by linarith) (by linarith)
    · have hm := min_le_left (w - c) (x + (q - (x + c) + 10))
      linarith
  · exact ⟨h0, h1⟩

theorem shiftDown (y c h q : ℚ) (h0 : 0 ≤ y) (h1 : y + c ≤ h) :
    0 ≤ (if y + c < q then
          (if y + c + (q - (y + c) + 10) ≤ h
           then min (h - c) (y + (q - (y + c) + 10)) else y) else y) ∧
    (if y + c < q then
      (if y + c + (q - (y + c) + 10) ≤ h
       then min (h - c) (y + (q - (y + c) + 10)) else y) else y) + c ≤ h := by
  split_ifs with ha hb
  · constructor
    · exact le_min (by linarith) (by linarith)
    · have hm := min_le_left (h - c) (y + (q - (y + c) + 10))
      linarith
  · exact ⟨h0, h1⟩
  · exact ⟨h0, h1⟩

theorem ensureShifts_spec (w h a c d e : ℚ) (st : Crop.CropState)
    (hx1 : 0 ≤ st.cx) (hx2 : st.cx + st.cw ≤ w)
    (hy1 : 0 ≤ st.cy) (hy2 : st.cy + st.ch ≤ h) :
    0 ≤ (Crop.ensureShifts w h a c d e st).cx ∧
    (Crop.ensureShifts w h a c d e st).cx +
      (Crop.ensureShifts w h a c d e st).cw ≤ w ∧
    0 ≤ (Crop.ensureShifts w h a c d e st).cy ∧
    (Crop.ensureShifts w h a c d e st).cy +
      (Crop.ensureShifts w h a c d e st).ch ≤ h ∧
    (Crop.ensureShifts w h a c d e st).cw = st.cw ∧
    (Crop.ensureShifts w h a c d e st).ch = st.ch := by
  unfold Crop.ensureShifts
  dsimp only
  obtain ⟨ha0, ha1⟩ := shiftLow st.cx a (st.cx - (st.cx - a + 10)) hx1
    (fun hlt => by linarith)
  obtain ⟨hb0, hb1⟩ := shiftHigh
    (if a < st.cx then max 0 (st.cx - (st.cx - a + 10)) else st.cx)
    st.cw w c ha0 (by linarith)
  obtain ⟨hc0, hc1⟩ := shiftLow st.cy d (d - 10) hy1 (fun hlt => by linarith)
  obtain ⟨hd0, hd1⟩ := shiftDown
    (if d < st.cy then max 0 (d - 10) else st.cy) st.ch h e hc0 (by linarith)
  exact ⟨hb0, hb1, hd0, hd1, rfl, rfl⟩

theorem rect_full_ok (wN hN : ℕ) (minX maxX minY maxY scx a c d e : ℚ)
    (hmx : minX ≤ maxX) (hmy : minY ≤ maxY) :
    0 ≤ jsRound (max 0 (Crop.ensureShifts (wN : ℚ) (hN : ℚ) a c d e
      (Crop.clampY (wN : ℚ) (hN : ℚ) scx
        (Crop.clampX (wN : ℚ) (Crop.initState minX maxX minY maxY)))).cx) ∧
    0 ≤ jsRound (max 0 (Crop.ensureShifts (wN : ℚ) (hN : ℚ) a c d e
      (Crop.clampY (wN : ℚ) (hN : ℚ) scx
        (Crop.clampX (wN : ℚ) (Crop.initState minX maxX minY maxY)))).cy) ∧
    jsRound (max 0 (Crop.ensureShifts (wN : ℚ) (hN : ℚ) a c d e
      (Crop.clampY (wN : ℚ) (hN : ℚ) scx
        (Crop.clampX (wN : ℚ) (Crop.initState minX maxX minY maxY)))).cx) +
      jsRound (min (Crop.ensureShifts (wN : ℚ) (hN : ℚ) a c d e
      (Crop.clampY (wN : ℚ) (hN : ℚ) scx
        (Crop.clampX (wN : ℚ) (Crop.initState minX maxX minY maxY)))).cw ((wN : ℚ) - (Crop.ensureShifts (wN : ℚ) (hN : ℚ) a c d e
      (Crop.clampY (wN : ℚ) (hN : ℚ) scx
        (Crop.clampX (wN : ℚ) (Crop.initState minX maxX minY maxY)))).cx)) ≤ (wN : ℤ) + 1 ∧
    jsRound (max 0 (Crop.ensureShifts (wN : ℚ) (hN : ℚ) a c d e
      (Crop.clampY (wN : ℚ) (hN : ℚ) scx
        (Crop.clampX (wN : ℚ) (Crop.initState minX maxX minY maxY)))).cy) +
      jsRound (min (Crop.ensureShifts (wN : ℚ) (hN : ℚ) a c d e
      (Crop.clampY (wN : ℚ) (hN : ℚ) scx
        (Crop.clampX (wN : ℚ) (Crop.initState minX maxX minY maxY)))).ch ((hN : ℚ) - (Crop.ensureShifts (wN : ℚ) (hN : ℚ) a c d e
      (Crop.clampY (wN : ℚ) (hN : ℚ) scx
        (Crop.clampX (wN : ℚ) (Crop.initState minX maxX minY maxY)))).cy)) ≤ (hN : ℤ) + 1 ∧
    ∃ cw ch : ℚ, cw = 4/5 * ch ∧
      |(jsRound (min (Crop.ensureShifts (wN : ℚ) (hN : ℚ) a c d e
      (Crop.clampY (wN : ℚ) (hN : ℚ) scx
        (Crop.clampX (wN : ℚ) (Crop.initState minX maxX minY maxY)))).cw ((wN : ℚ) - (Crop.ensureShifts (wN : ℚ) (hN : ℚ) a c d e
      (Crop.clampY (wN : ℚ) (hN : ℚ) scx
        (Crop.clampX (wN : ℚ) (Crop.initState minX maxX minY maxY)))).cx)) : ℚ) - cw| ≤ 1/2 ∧
      |(jsRound (min (Crop.ensureShifts (wN : ℚ) (hN : ℚ) a c d e
      (Crop.clampY (wN : ℚ) (hN : ℚ) scx
        (Crop.clampX (wN : ℚ) (Crop.initState minX maxX minY maxY)))).ch ((hN : ℚ) - (Crop.ensureShifts (wN : ℚ) (hN : ℚ) a c d e
      (Crop.clampY (wN : ℚ) (hN : ℚ) scx
        (Crop.clampX (wN : ℚ) (Crop.initState minX maxX minY maxY)))).cy)) : ℚ) - ch| ≤ 1/2 := by
  obtain ⟨hr0, hch0⟩ := initState_spec minX maxX minY maxY hmx hmy
  obtain ⟨ha1, ha2, ha3, ha4⟩ := clampX_spec (wN : ℚ)
    (Crop.initState minX maxX minY maxY) (Nat.cast_nonneg wN) ⟨hr0, hch0⟩
  obtain ⟨h1, h2, h3, h4, h5, h6⟩ := clampY_spec (wN : ℚ) (hN : ℚ) scx
    (Crop.clampX (wN : ℚ) (Crop.initState minX maxX minY maxY))
    (Nat.cast_nonneg wN) (Nat.cast_nonneg hN) ha1 ha2 ha3 ha4
  obtain ⟨g1, g2, g3, g4, g5, g6⟩ := ensureShifts_spec (wN : ℚ) (hN : ℚ)
    a c d e
    (Crop.clampY (wN : ℚ) (hN : ℚ) scx
      (Crop.clampX (wN : ℚ) (Crop.initState minX maxX minY maxY)))
    h1 h2 h5 h6
  have gr : (Crop.ensureShifts (wN : ℚ) (hN : ℚ) a c d e
      (Crop.clampY (wN : ℚ) (hN : ℚ) scx
        (Crop.clampX (wN : ℚ) (Crop.initState minX maxX minY maxY)))).cw = 4/5 * (Crop.ensureShifts (wN : ℚ) (hN : ℚ) a c d e
      (Crop.clampY (wN : ℚ) (hN : ℚ) scx
        (Crop.clampX (wN : ℚ) (Crop.initState minX maxX minY maxY)))).ch := by
    rw [g5, g6]
    exact h3
  rw [max_eq_right g1, max_eq_right g3, min_eq_left (by linarith),
    min_eq_left (by linarith)]
  have e1 : ((jsRound (Crop.ensureShifts (wN : ℚ) (hN : ℚ) a c d e
      (Crop.clampY (wN : ℚ) (hN : ℚ) scx
        (Crop.clampX (wN : ℚ) (Crop.initState minX maxX minY maxY)))).cx : ℤ) : ℚ) ≤ (Crop.ensureShifts (wN : ℚ) (hN : ℚ) a c d e
      (Crop.clampY (wN : ℚ) (hN : ℚ) scx
        (Crop.clampX (wN : ℚ) (Crop.initState minX maxX minY maxY)))).cx + 1/2 := Int.floor_le _
  have e2 : ((jsRound (Crop.ensureShifts (wN : ℚ) (hN : ℚ) a c d e
      (Crop.clampY (wN : ℚ) (hN : ℚ) scx
        (Crop.clampX (wN : ℚ) (Crop.initState minX maxX minY maxY)))).cw : ℤ) : ℚ) ≤ (Crop.ensureShifts (wN : ℚ) (hN : ℚ) a c d e
      (Crop.clampY (wN : ℚ) (hN : ℚ) scx
        (Crop.clampX (wN : ℚ) (Crop.initState minX maxX minY maxY)))).cw + 1/2 := Int.floor_le _
  have e3 : ((jsRound (Crop.ensureShifts (wN : ℚ) (hN : ℚ) a c d e
      (Crop.clampY (wN : ℚ) (hN : ℚ) scx
        (Crop.clampX (wN : ℚ) (Crop.initState minX maxX minY maxY)))).cy : ℤ) : ℚ) ≤ (Crop.ensureShifts (wN : ℚ) (hN : ℚ) a c d e
      (Crop.clampY (wN : ℚ) (hN : ℚ) scx
        (Crop.clampX (wN : ℚ) (Crop.initState minX maxX minY maxY)))).cy + 1/2 := Int.floor_le _
  have e4 : ((jsRound (Crop.ensureShifts (wN : ℚ) (hN : ℚ) a c d e
      (Crop.clampY (wN : ℚ) (hN : ℚ) scx
        (Crop.clampX (wN : ℚ) (Crop.initState minX maxX minY maxY)))).ch : ℤ) : ℚ) ≤ (Crop.ensureShifts (wN : ℚ) (hN : ℚ) a c d e
      (Crop.clampY (wN : ℚ) (hN : ℚ) scx
        (Crop.clampX (wN : ℚ) (Crop.initState minX maxX minY maxY)))).ch + 1/2 := Int.floor_le _
  have f2 : (Crop.ensureShifts (wN : ℚ) (hN : ℚ) a c d e
      (Crop.clampY (wN : ℚ) (hN : ℚ) scx
        (Crop.clampX (wN : ℚ) (Crop.initState minX maxX minY maxY)))).cw + 1/2 - 1 < ((jsRound (Crop.ensureShifts (wN : ℚ) (hN : ℚ) a c d e
      (Crop.clampY (wN : ℚ) (hN : ℚ) scx
        (Crop.clampX (wN : ℚ) (Crop.initState minX maxX minY maxY)))).cw : ℤ) : ℚ) :=
    Int.sub_one_lt_floor _
  have f4 : (Crop.ensureShifts (wN : ℚ) (hN : ℚ) a c d e
      (Crop.clampY (wN : ℚ) (hN : ℚ) scx
        (Crop.clampX (wN : ℚ) (Crop.initState minX maxX minY maxY)))).ch + 1/2 - 1 < ((jsRound (Crop.ensureShifts (wN : ℚ) (hN : ℚ) a c d e
      (Crop.clampY (wN : ℚ) (hN : ℚ) scx
        (Crop.clampX (wN : ℚ) (Crop.initState minX maxX minY maxY)))).ch : ℤ) : ℚ) :=
    Int.sub_one_lt_floor _
  refine ⟨?_, ?_, ?_, ?_, (Crop.ensureShifts (wN : ℚ) (hN : ℚ) a c d e
      (Crop.clampY (wN : ℚ) (hN : ℚ) scx
        (Crop.clampX (wN : ℚ) (Crop.initState minX maxX minY maxY)))).cw, (Crop.ensureShifts (wN : ℚ) (hN : ℚ) a c d e
      (Crop.clampY (wN : ℚ) (hN : ℚ) scx
        (Crop.clampX (wN : ℚ) (Crop.initState minX maxX minY maxY)))).ch, gr, ?_, ?_⟩
  · exact Int.le_floor.mpr (by push_cast; linarith)
  · exact Int.le_floor.mpr (by push_cast; linarith)
  · have hq : ((jsRound (Crop.ensureShifts (wN : ℚ) (hN : ℚ) a c d e
      (Crop.clampY (wN : ℚ) (hN : ℚ) scx
        (Crop.clampX (wN : ℚ) (Crop.initState minX maxX minY maxY)))).cx + jsRound (Crop.ensureShifts (wN : ℚ) (hN : ℚ) a c d e
      (Crop.clampY (wN : ℚ) (hN : ℚ) scx
        (Crop.clampX (wN : ℚ) (Crop.initState minX maxX minY maxY)))).cw : ℤ) : ℚ) ≤
        ((wN : ℤ) : ℚ) + 1 := by
      push_cast at e1 e2 ⊢
      linarith
    exact_mod_cast hq
  · have hq : ((jsRound (Crop.ensureShifts (wN : ℚ) (hN : ℚ) a c d e
      (Crop.clampY (wN : ℚ) (hN : ℚ) scx
        (Crop.clampX (wN : ℚ) (Crop.initState minX maxX minY maxY)))).cy + jsRound (Crop.ensureShifts (wN : ℚ) (hN : ℚ) a c d e
      (Crop.clampY (wN : ℚ) (hN : ℚ) scx
        (Crop.clampX (wN : ℚ) (Crop.initState minX maxX minY maxY)))).ch : ℤ) : ℚ) ≤
        ((hN : ℤ) : ℚ) + 1 := by
      push_cast at e3 e4 ⊢
      linarith
    exact_mod_cast hq
  · exact abs_le.mpr ⟨by linarith, by linarith⟩
  · exact abs_le.mpr ⟨by linarith, by linarith⟩

theorem foldl_min_le_start (f : ℕ × ℕ → ℕ) (l : List (ℕ × ℕ)) :
    ∀ a : ℕ, l.foldl (fun x c => min x (f c)) a ≤ a := by
  induction l with
  | nil => exact fun a => le_refl a
  | cons c t ih =>
    exact fun a => le_trans (ih (min a (f c))) (min_le_left _ _)

theorem foldl_min_le_mem (f : ℕ × ℕ → ℕ) {l : List (ℕ × ℕ)} {c : ℕ × ℕ}
    (hc : c ∈ l) : ∀ a : ℕ, l.foldl (fun x d => min x (f d)) a ≤ f c := by
  induction l with
  | nil => cases hc
  | cons d t ih =>
    intro a
    rcases List.mem_cons.mp hc with h | h
    · subst h
      exact le_trans (foldl_min_le_start f t _) (min_le_right _ _)
    · exact ih h _

theorem le_foldl_max_start (f : ℕ × ℕ → ℕ) (l : List (ℕ × ℕ)) :
    ∀ a : ℕ, a ≤ l.foldl (fun x c => max x (f c)) a := by
  induction l with
  | nil => exact fun a => le_refl a
  | cons c t ih =>
    exact fun a => le_trans (le_max_left _ _) (ih (max a (f c)))

theorem le_foldl_max_mem (f : ℕ × ℕ → ℕ) {l : List (ℕ × ℕ)} {c : ℕ × ℕ}
    (hc : c ∈ l) : ∀ a : ℕ, f c ≤ l.foldl (fun x d => max x (f d)) a := by
  induction l with
  | nil => cases hc
  | cons d t ih =>
    intro a
    rcases List.mem_cons.mp hc with h | h
    · subst h
      exact le_trans (le_max_right _ _) (le_foldl_max_start f t _)
    · exact ih h _

set_option maxHeartbeats 1000000 in
/-- C4 amended: every crop rectangle cropToSubject stores when a subject
is detected is the half-up rounding of an exact rational rectangle that
has width = 4/5 * height and lies exactly within the image; consequently
the stored x and y are nonnegative, x + width and y + height may exceed
the image dimensions by at most one pixel (and the counterexample shows
the one-pixel overshoot does occur), and the stored width and height are
each within 1/2 of an exact-4:5 pair. -/
theorem cropToSubject_rect_bounds (mask : List ℚ) (width height : ℕ)
    (r : Crop.Rect) (hsome : Crop.cropToSubject mask width height = some r) :
    0 ≤ r.x ∧ 0 ≤ r.y ∧ r.x + r.w ≤ (width : ℤ) + 1 ∧
    r.y + r.h ≤ (height : ℤ) + 1 ∧
    ∃ cw ch : ℚ, cw = 4/5 * ch ∧
      |(r.w : ℚ) - cw| ≤ 1/2 ∧ |(r.h : ℚ) - ch| ≤ 1/2 := by
  unfold Crop.cropToSubject at hsome
  dsimp only at hsome
  by_cases hc : Crop.subjectCells mask width height = []
  · rw [if_pos hc] at hsome
    exact absurd hsome (by simp)
  · rw [if_neg hc] at hsome
    have heq := Option.some.inj hsome
    subst heq
    obtain ⟨cell, hcell⟩ := List.exists_mem_of_ne_nil _ hc
    have hmx : (((Crop.subjectCells mask width height).foldl
          (fun a c => min a c.1) width : ℕ) : ℚ) ≤
        (((Crop.subjectCells mask width height).foldl
          (fun a c => max a c.1) 0 : ℕ) : ℚ) := by
      exact_mod_cast le_trans (foldl_min_le_mem (fun c => c.1) hcell width)
        (le_foldl_max_mem (fun c => c.1) hcell 0)
    have hmy : (((Crop.subjectCells mask width height).foldl
          (fun a c => min a c.2) height : ℕ) : ℚ) ≤
        (((Crop.subjectCells mask width height).foldl
          (fun a c => max a c.2) 0 : ℕ) : ℚ) := by
      exact_mod_cast le_trans (foldl_min_le_mem (fun c => c.2) hcell height)
        (le_foldl_max_mem (fun c => c.2) hcell 0)
    exact rect_full_ok width height _ _ _ _ _ _ _ _ _ hmx hmy


/-- Witness for C4 amended at the 3x4 counterexample mask, whose stored
rectangle attains the one-pixel bottom overshoot the bound allows. -/
theorem cropToSubject_rect_bounds_witness :
    0 ≤ smallCropRect.x ∧ 0 ≤ smallCropRect.y ∧
    smallCropRect.x + smallCropRect.w ≤ (3 : ℤ) + 1 ∧
    smallCropRect.y + smallCropRect.h ≤ (4 : ℤ) + 1 ∧
    ∃ cw ch : ℚ, cw = 4/5 * ch ∧
      |(smallCropRect.w : ℚ) - cw| ≤ 1/2 ∧ |(smallCropRect.h : ℚ) - ch| ≤ 1/2 :=
  cropToSubject_rect_bounds smallSubjectMask 3 4 smallCropRect cropSmall_eval


end Timmons
